import Mathlib

/-!
Verification of the metrics/alerting core of the llm-dashboard repository
(`llm/models.py`, `llm/metrics.py`, `llm/alerts.py`), shallowly embedded in
Lean 4.  Timestamps are modelled as integer minute counts, Python ints as
`Int`, Python floats/Decimals arising from division as `ℚ`, and database
querysets as Lean lists filtered by the same predicates the ORM calls
express.  Exceptions (database errors, mail-delivery errors) are modelled
with `Except`.
-/

namespace LLMDash

/-- One row of `LLMRequestLog` (llm/models.py).  `timestamp` is a minute
count; `cost_estimate` (a `DecimalField`) is a rational. -/
structure RequestRecord where
  user_id : Option String
  model_name : String
  prompt_tokens : Int
  completion_tokens : Int
  total_tokens : Int
  latency_ms : Int
  cost_estimate : ℚ
  status : String
  error_type : String
  timestamp : Int
deriving DecidableEq

/-- `LLMRequestLog.save` (llm/models.py lines 149-153): auto-fill
`total_tokens` with `prompt_tokens + completion_tokens` when it is 0. -/
def save (r : RequestRecord) : RequestRecord :=
  if r.total_tokens = 0 then
    { r with total_tokens := r.prompt_tokens + r.completion_tokens }
  else r

/-- `int(n * 0.95)`: for the sizes the code handles the float product never
crosses an integer boundary, so truncation agrees with exact
`floor(0.95 * n) = 19 * n / 20`. -/
def p95Index (n : Nat) : Nat := 19 * n / 20

/-- `order_by('latency_ms')` on a values list: ascending sort. -/
def sortedLatencies (l : List Int) : List Int := List.insertionSort (· ≤ ·) l

/-- P95 as computed by `MetricsService.get_overview_metrics`
(llm/metrics.py lines 91-93): `latencies[p95_index] if latencies else 0`.
The index is in bounds for every non-empty list (proved below), so `getD`
coincides with Python's checked indexing. -/
def overviewP95 (l : List Int) : Int :=
  let latencies := sortedLatencies l
  if latencies.isEmpty then 0 else latencies.getD (p95Index latencies.length) 0

/-- P95 as computed by `MetricsService.get_latency_metrics`
(llm/metrics.py lines 217-219): index guarded by `p95_index < len`. -/
def latencyMetricsP95 (l : List Int) : Int :=
  let latencies := sortedLatencies l
  let i := if latencies.isEmpty then 0 else p95Index latencies.length
  if !latencies.isEmpty && decide (i < latencies.length) then latencies.getD i 0 else 0

/-- P95 as computed by `AlertService._check_latency`
(llm/alerts.py lines 132-133): `latencies[min(p95_index, len - 1)]`. -/
def alertP95 (l : List Int) : Int :=
  let latencies := sortedLatencies l
  latencies.getD (min (p95Index latencies.length) (latencies.length - 1)) 0

/-- From the spec's words only: `sorted(seq)[clamp(floor(0.95*len), 0, len-1)]`,
with `clamp(x, lo, hi) = min (max x lo) hi`.  Compared against the three
implementation-side P95 definitions above. -/
def specP95 (l : List Int) : Int :=
  (sortedLatencies l).getD (min (max (p95Index l.length) 0) (l.length - 1)) 0

/-- Python's `round(x, 2)`, modelled as the nearest multiple of 1/100. -/
def round2 (q : ℚ) : ℚ := (round (q * 100) : ℤ) / 100

/-- Sum of an integer-valued field over a queryset, with Django's
`Sum(...) or 0` / `Coalesce(Sum(...), 0)` convention (empty set gives 0). -/
def sumBy (f : RequestRecord → Int) (l : List RequestRecord) : Int :=
  (l.map f).sum

/-- Sum of `cost_estimate` with `Coalesce(Sum(...), 0)`. -/
def sumCost (l : List RequestRecord) : ℚ :=
  (l.map (·.cost_estimate)).sum

/-- The queryset built by `get_overview_metrics` (llm/metrics.py lines
50-62): all records, then user, start, end, model filters in that order. -/
def overviewQueryset (records : List RequestRecord)
    (start_date end_date : Option Int) (model : Option String)
    (user_id : Option String) : List RequestRecord :=
  let q0 : List RequestRecord := match user_id with
            | some u => records.filter (fun r => decide (r.user_id = some u))
            | none => records
  let q1 : List RequestRecord := match start_date with
            | some s => q0.filter (fun r => decide (s ≤ r.timestamp))
            | none => q0
  let q2 : List RequestRecord := match end_date with
            | some e => q1.filter (fun r => decide (r.timestamp ≤ e))
            | none => q1
  match model with
  | some m => q2.filter (fun r => decide (r.model_name = m))
  | none => q2

/-- Result shape of `get_overview_metrics`. -/
structure OverviewMetrics where
  total_calls : Nat
  total_tokens : Int
  total_cost : ℚ
  avg_latency_ms : ℚ
  p95_latency_ms : Int
  error_rate : ℚ
  success_count : Nat
  error_count : Nat
deriving DecidableEq

/-- `MetricsService.get_overview_metrics` (llm/metrics.py lines 31-107). -/
def get_overview_metrics (records : List RequestRecord)
    (start_date end_date : Option Int) (model : Option String)
    (user_id : Option String) : OverviewMetrics :=
  let queryset := overviewQueryset records start_date end_date model user_id
  let total_calls := queryset.length
  if total_calls = 0 then
    { total_calls := 0, total_tokens := 0, total_cost := 0, avg_latency_ms := 0
      p95_latency_ms := 0, error_rate := 0, success_count := 0, error_count := 0 }
  else
    let total_tokens := sumBy (·.total_tokens) queryset
    let total_cost := sumCost queryset
    let avg_latency : ℚ := (sumBy (·.latency_ms) queryset : ℚ) / total_calls
    let success_count := (queryset.filter (fun r => decide (r.status = "success"))).length
    let error_count := (queryset.filter (fun r => decide (r.status = "error"))).length
    let p95_latency := overviewP95 (queryset.map (·.latency_ms))
    let error_rate : ℚ := (error_count : ℚ) / total_calls * 100
    { total_calls := total_calls, total_tokens := total_tokens
      total_cost := total_cost, avg_latency_ms := round2 avg_latency
      p95_latency_ms := p95_latency, error_rate := round2 error_rate
      success_count := success_count, error_count := error_count }

/-- One row of `get_latency_metrics`. -/
structure LatencyRow where
  model_name : String
  avg_latency_ms : ℚ
  min_latency_ms : Int
  max_latency_ms : Int
  p95_latency_ms : Int
  call_count : Nat
deriving DecidableEq

/-- `Coalesce(Min('latency_ms'), 0)` over a queryset. -/
def minLatencyD (l : List Int) : Int :=
  match l with
  | [] => 0
  | x :: xs => xs.foldl min x

/-- `Coalesce(Max('latency_ms'), 0)` over a queryset. -/
def maxLatencyD (l : List Int) : Int :=
  match l with
  | [] => 0
  | x :: xs => xs.foldl max x

/-- `MetricsService.get_latency_metrics` (llm/metrics.py lines 172-230):
success-only records, user/start/end filters, one row per distinct model. -/
def get_latency_metrics (records : List RequestRecord)
    (start_date end_date : Option Int) (user_id : Option String) : List LatencyRow :=
  let q0 := records.filter (fun r => decide (r.status = "success"))
  let q1 : List RequestRecord := match user_id with
            | some u => q0.filter (fun r => decide (r.user_id = some u))
            | none => q0
  let q2 : List RequestRecord := match start_date with
            | some s => q1.filter (fun r => decide (s ≤ r.timestamp))
            | none => q1
  let queryset : List RequestRecord := match end_date with
                  | some e => q2.filter (fun r => decide (r.timestamp ≤ e))
                  | none => q2
  let models := (queryset.map (·.model_name)).dedup
  models.map (fun m =>
    let model_queryset := queryset.filter (fun r => decide (r.model_name = m))
    let lats := model_queryset.map (·.latency_ms)
    let avg_latency : ℚ :=
      if model_queryset.length = 0 then 0
      else (sumBy (·.latency_ms) model_queryset : ℚ) / model_queryset.length
    { model_name := m, avg_latency_ms := round2 avg_latency
      min_latency_ms := minLatencyD lats, max_latency_ms := maxLatencyD lats
      p95_latency_ms := latencyMetricsP95 lats, call_count := model_queryset.length })

/-- The three timestamp-truncation collaborators (`TruncHour`, `TruncDay`,
`TruncMonth` from Django): external database functions, passed in as
parameters of the embedding. -/
structure TruncFns where
  hour : Int → Int
  day : Int → Int
  month : Int → Int

/-- One row of `get_token_usage_over_time`. -/
structure UsageRow where
  period : Int
  prompt_tokens : Int
  completion_tokens : Int
  total_tokens : Int
  cost : ℚ
deriving DecidableEq

/-- Ascending sort of period keys, modelling `order_by('period')`. -/
def sortPeriods (l : List Int) : List Int := List.insertionSort (· ≤ ·) l

/-- `MetricsService.get_token_usage_over_time` (llm/metrics.py lines
109-170): success-only records, user/start/end/model filters, truncation
function chosen by `{'hour': .., 'day': .., 'month': ..}.get(group_by,
TruncDay)`, grouped by period with per-group sums, ordered by period. -/
def get_token_usage_over_time (tf : TruncFns) (records : List RequestRecord)
    (start_date end_date : Option Int) (model : Option String)
    (group_by : String) (user_id : Option String) : List UsageRow :=
  let q0 := records.filter (fun r => decide (r.status = "success"))
  let q1 : List RequestRecord := match user_id with
            | some u => q0.filter (fun r => decide (r.user_id = some u))
            | none => q0
  let q2 : List RequestRecord := match start_date with
            | some s => q1.filter (fun r => decide (s ≤ r.timestamp))
            | none => q1
  let q3 : List RequestRecord := match end_date with
            | some e => q2.filter (fun r => decide (r.timestamp ≤ e))
            | none => q2
  let queryset : List RequestRecord := match model with
                  | some m => q3.filter (fun r => decide (r.model_name = m))
                  | none => q3
  let trunc : Int → Int := if group_by = "hour" then tf.hour
               else if group_by = "day" then tf.day
               else if group_by = "month" then tf.month
               else tf.day
  let periods := sortPeriods ((queryset.map (fun r => trunc r.timestamp)).dedup)
  periods.map (fun p =>
    let grp := queryset.filter (fun r => decide (trunc r.timestamp = p))
    { period := p
      prompt_tokens := sumBy (·.prompt_tokens) grp
      completion_tokens := sumBy (·.completion_tokens) grp
      total_tokens := sumBy (·.total_tokens) grp
      cost := sumCost grp })

/-- One row of `AlertRule` (llm/models.py).  `threshold` is a `FloatField`,
modelled as a rational; `last_triggered_at` is a nullable timestamp. -/
structure AlertRule where
  name : String
  metric_type : String
  threshold : ℚ
  is_active : Bool
  notify_email : Bool
  last_triggered_at : Option Int
deriving DecidableEq

/-- The observable content of an `AlertLog` row created by
`AlertService._trigger_alert`: the triggering rule and the metric value. -/
structure AlertEvent where
  rule_name : String
  metric_value : ℚ
deriving DecidableEq

/-- `LLMRequestLog.objects.filter(timestamp__gte=startT, timestamp__lte=endT)`:
the closed time window used by both `_check_rule` and `_check_token_spike`. -/
def windowFilter (records : List RequestRecord) (startT endT : Int) :
    List RequestRecord :=
  records.filter (fun r => decide (startT ≤ r.timestamp ∧ r.timestamp ≤ endT))

/-- `AlertService._check_error_rate` (llm/alerts.py lines 97-115). -/
def check_error_rate (rule : AlertRule) (queryset : List RequestRecord)
    (total_count : Nat) : Option AlertEvent :=
  let error_count := (queryset.filter (fun r => decide (r.status = "error"))).length
  let error_rate : ℚ :=
    if total_count > 0 then (error_count : ℚ) / total_count * 100 else 0
  if error_rate ≥ rule.threshold then some ⟨rule.name, error_rate⟩ else none

/-- `AlertService._check_latency` (llm/alerts.py lines 117-143): P95 over
the window's successful records; none when there are no successes. -/
def check_latency (rule : AlertRule) (queryset : List RequestRecord) :
    Option AlertEvent :=
  let latencies := sortedLatencies
    ((queryset.filter (fun r => decide (r.status = "success"))).map (·.latency_ms))
  if latencies.isEmpty then none
  else
    let p95_latency := latencies.getD
      (min (p95Index latencies.length) (latencies.length - 1)) 0
    if (p95_latency : ℚ) ≥ rule.threshold then
      some ⟨rule.name, (p95_latency : ℚ)⟩
    else none

/-- The spike-ratio computation of `_check_token_spike`
(llm/alerts.py lines 170-174). -/
def spikeVal (current_tokens previous_tokens : Int) : ℚ :=
  if previous_tokens > 0 then (current_tokens : ℚ) / previous_tokens
  else if current_tokens > 0 then (current_tokens : ℚ) else 0

/-- `AlertService._check_token_spike` (llm/alerts.py lines 145-185):
current-window token sum against the sum over
`[end_time - w, end_time]` with `end_time = now - w` (both window
filters use `gte`/`lte`, hence closed intervals). -/
def check_token_spike (rule : AlertRule) (queryset : List RequestRecord)
    (records : List RequestRecord) (now : Int) (time_window_minutes : Int) :
    Option AlertEvent :=
  let current_tokens := sumBy (·.total_tokens) queryset
  let end_time := now - time_window_minutes
  let start_time := end_time - time_window_minutes
  let previous_queryset := windowFilter records start_time end_time
  let previous_tokens := sumBy (·.total_tokens) previous_queryset
  let spike_value := spikeVal current_tokens previous_tokens
  if spike_value ≥ rule.threshold then some ⟨rule.name, spike_value⟩ else none

/-- `AlertService._check_rule` (llm/alerts.py lines 58-95): fetch the
window `[now - w, now]`, return none when it is empty, otherwise dispatch
on `metric_type` (unknown types give none). -/
def check_rule (rule : AlertRule) (records : List RequestRecord)
    (now : Int) (time_window_minutes : Int) : Option AlertEvent :=
  let start_time := now - time_window_minutes
  let queryset := windowFilter records start_time now
  let total_count := queryset.length
  if total_count = 0 then none
  else if rule.metric_type = "error_rate" then
    check_error_rate rule queryset total_count
  else if rule.metric_type = "latency" then
    check_latency rule queryset
  else if rule.metric_type = "token_spike" then
    check_token_spike rule queryset records now time_window_minutes
  else none

/-- A per-rule evaluation outcome: the body of the `check_all_alerts` loop
calls `_check_rule`, whose database reads can raise; the possible raise is
modelled with `Except`. -/
def RuleEval : Type := AlertRule → Except String (Option AlertEvent)

/-- The loop of `check_all_alerts` (llm/alerts.py lines 51-54): there is no
try/except around `_check_rule`, so an error propagates and the remaining
rules are not evaluated. -/
def run_rules (evalRule : RuleEval) : List AlertRule →
    Except String (List AlertEvent)
  | [] => Except.ok []
  | r :: rest =>
    match evalRule r with
    | Except.error e => Except.error e
    | Except.ok none => run_rules evalRule rest
    | Except.ok (some ev) =>
      match run_rules evalRule rest with
      | Except.error e => Except.error e
      | Except.ok evs => Except.ok (ev :: evs)

/-- `AlertService.check_all_alerts` (llm/alerts.py lines 38-56): filter the
active rules, then run the un-guarded evaluation loop. -/
def check_all_alerts (evalRule : RuleEval) (rules : List AlertRule) :
    Except String (List AlertEvent) :=
  run_rules evalRule (rules.filter (·.is_active))

/-- Bool test for a successful `Except` outcome. -/
def isOkB (x : Except String (Option AlertEvent)) : Bool :=
  match x with
  | Except.ok _ => true
  | Except.error _ => false

/-- The event an evaluation produced, when it succeeded and triggered. -/
def okEvent (x : Except String (Option AlertEvent)) : Option AlertEvent :=
  match x with
  | Except.ok o => o
  | Except.error _ => none

/-- `AlertService._send_email_notification` (llm/alerts.py lines 224-268):
the whole `send_mail` call sits in a `try`/`except Exception`, so a
delivery failure is reported as `False`, never as a raise.  The outcome of
the external `send_mail` collaborator is the `Except` parameter. -/
def send_email_notification (sendResult : Except String Unit) : Bool :=
  match sendResult with
  | Except.ok _ => true
  | Except.error _ => false

/-- Everything observable after one `_trigger_alert` call. -/
structure TriggerOutcome where
  event : AlertEvent
  events_store : List AlertEvent
  rule_after : AlertRule
  email_attempted : Bool
  email_sent : Bool
deriving DecidableEq

/-- `AlertService._trigger_alert` (llm/alerts.py lines 187-222): create the
`AlertLog` row, update the rule's `last_triggered_at`, then — if the rule
asks for email and recipients are configured — attempt delivery through
`_send_email_notification`, whose result is ignored; the created row is
returned unconditionally. -/
def trigger_alert (sendResult : Except String Unit) (rule : AlertRule)
    (metric_value : ℚ) (now : Int) (store : List AlertEvent)
    (email_recipients : List String) : TriggerOutcome :=
  let alert_log : AlertEvent := ⟨rule.name, metric_value⟩
  let store2 := store ++ [alert_log]
  let rule2 := { rule with last_triggered_at := some now }
  let attempt := rule.notify_email && !email_recipients.isEmpty
  let sent := if attempt then send_email_notification sendResult else false
  { event := alert_log, events_store := store2, rule_after := rule2
    email_attempted := attempt, email_sent := sent }

/-! Concrete fixtures used by witnesses and counterexamples. -/

/-- A default successful record (all token/latency fields zero). -/
def baseRecord : RequestRecord :=
  { user_id := none, model_name := "m", prompt_tokens := 0, completion_tokens := 0
    total_tokens := 0, latency_ms := 0, cost_estimate := 0, status := "success"
    error_type := "none", timestamp := 0 }

/-- A successful record with the given latency and timestamp. -/
def mkSucc (lat t : Int) : RequestRecord :=
  { baseRecord with latency_ms := lat, timestamp := t }

/-- 20 successful records with latencies 100, 200, ..., 2000 at time 50. -/
def ex20 : List RequestRecord :=
  (List.range 20).map (fun i => mkSucc (100 * ((i : Int) + 1)) 50)

/-- A latency rule with threshold 1000 ms. -/
def latRuleEx : AlertRule :=
  { name := "High Latency", metric_type := "latency", threshold := 1000
    is_active := true, notify_email := false, last_triggered_at := none }

/-- A latency rule with threshold 50 ms. -/
def latRuleLow : AlertRule := { latRuleEx with name := "lat-low", threshold := 50 }

/-- A token-spike rule with threshold 3. -/
def spikeRuleEx : AlertRule :=
  { name := "Token Usage Spike", metric_type := "token_spike", threshold := 3
    is_active := true, notify_email := false, last_triggered_at := none }

/-- A record of 500 tokens timestamped exactly at `now - w` for
`now = 100`, `w = 10`. -/
def rSpike : RequestRecord := { baseRecord with timestamp := 90, total_tokens := 500 }

/-- A successful 100 ms record inside the window. -/
def rSucc10 : RequestRecord := { baseRecord with latency_ms := 100, timestamp := 90 }

/-- An error-status 5000 ms record inside the window. -/
def rErr10 : RequestRecord :=
  { baseRecord with
      latency_ms := 5000, timestamp := 95, status := "error", error_type := "timeout" }

/-- Mixed-status data set: one success (100 ms), one error (5000 ms). -/
def ex10 : List RequestRecord := [rSucc10, rErr10]

/-- Two active rules distinguished by name. -/
def rule1Ex : AlertRule :=
  { name := "r1", metric_type := "error_rate", threshold := 5
    is_active := true, notify_email := false, last_triggered_at := none }

/-- The second of the two rules. -/
def rule2Ex : AlertRule := { rule1Ex with name := "r2" }

/-- A rule evaluation that raises a store error on rule "r1" and triggers
with value 7 on everything else. -/
def evalFailFirst : RuleEval := fun r =>
  if r.name = "r1" then Except.error "store unavailable"
  else Except.ok (some ⟨r.name, 7⟩)

/-- A rule evaluation that always succeeds, triggering with value 7. -/
def evalAllOk : RuleEval := fun r => Except.ok (some ⟨r.name, 7⟩)

/-- Sample truncation collaborators on minute counts: start of hour, of
day, of a 30-day period. -/
def tfEx : TruncFns :=
  { hour := fun t => t - t % 60, day := fun t => t - t % 1440
    month := fun t => t - t % 43200 }

/-- A record with `total_tokens` left at its default 0. -/
def rTok : RequestRecord :=
  { baseRecord with prompt_tokens := 3, completion_tokens := 4 }

/-- A record of 500 tokens strictly inside the current window
(`now = 100`, `w = 10`). -/
def rCur : RequestRecord := { baseRecord with timestamp := 95, total_tokens := 500 }

/-- A zero-token record strictly inside the current window. -/
def rZero : RequestRecord := { baseRecord with timestamp := 95 }

/-! Helper lemmas. -/

theorem p95Index_lt (n : Nat) (h : 0 < n) : p95Index n < n := by
  unfold p95Index
  have h20 : 0 < 20 := by norm_num
  exact (Nat.div_lt_iff_lt_mul h20).mpr (by omega)

theorem sortedLatencies_length (l : List Int) :
    (sortedLatencies l).length = l.length :=
  (List.perm_insertionSort _ l).length_eq

theorem sortedLatencies_eq_nil (l : List Int) :
    sortedLatencies l = [] ↔ l = [] := by
  constructor
  · intro h
    have := sortedLatencies_length l
    rw [h] at this
    exact List.length_eq_zero.mp this.symm
  · intro h; subst h; rfl

/-! Claim theorems. -/

/-- C1: for every non-empty latency sequence, the overview P95, the
per-model latency P95 and the latency-alert P95 all return
`sorted(seq)[clamp(floor(0.95*n), 0, n-1)]`; in particular the three
implementations agree on every non-empty input. -/
theorem C1_p95_agree (l : List Int) (h : l ≠ []) :
    overviewP95 l = specP95 l ∧ latencyMetricsP95 l = specP95 l
      ∧ alertP95 l = specP95 l := by
  have hn : 0 < l.length := List.length_pos.mpr h
  have hlen : (sortedLatencies l).length = l.length := sortedLatencies_length l
  have hne : (sortedLatencies l).isEmpty = false := by
    have hnil : sortedLatencies l ≠ [] := fun hx => h ((sortedLatencies_eq_nil l).mp hx)
    cases hsl : sortedLatencies l with
    | nil => exact absurd hsl hnil
    | cons a as => rfl
  have hlt : p95Index l.length < l.length := p95Index_lt l.length hn
  have hidx : p95Index l.length ≤ l.length - 1 := by omega
  have hmin : min (p95Index l.length) (l.length - 1) = p95Index l.length :=
    Nat.min_eq_left hidx
  have hmax : max (p95Index l.length) 0 = p95Index l.length :=
    Nat.max_eq_left (Nat.zero_le _)
  refine ⟨?_, ?_, ?_⟩
  · simp [overviewP95, specP95, hne, hlen, hmin, hmax]
  · simp [latencyMetricsP95, specP95, hne, hlen, hmin, hmax, hlt]
  · simp [alertP95, specP95, hne, hlen, hmin, hmax]

/-- Witness for C1 at the concrete sequence `[100, 200, 2000]`. -/
theorem C1_p95_agree_witness :
    overviewP95 [100, 200, 2000] = specP95 [100, 200, 2000]
      ∧ latencyMetricsP95 [100, 200, 2000] = specP95 [100, 200, 2000]
      ∧ alertP95 [100, 200, 2000] = specP95 [100, 200, 2000] :=
  C1_p95_agree [100, 200, 2000] (by decide)

/-- C5: whenever a rule triggers, the AlertEvent with the computed metric
value is created and the rule's `last_triggered_at` is updated, and a
notifier failure (an exception from the delivery call) never prevents or
rolls back the event: the created event is still returned when delivery
fails. -/
theorem C5_notifier_isolation (sendResult : Except String Unit)
    (rule : AlertRule) (v : ℚ) (now : Int) (store : List AlertEvent)
    (recipients : List String) :
    (trigger_alert sendResult rule v now store recipients).event = ⟨rule.name, v⟩
    ∧ (trigger_alert sendResult rule v now store recipients).events_store
        = store ++ [⟨rule.name, v⟩]
    ∧ (trigger_alert sendResult rule v now store recipients).rule_after.last_triggered_at
        = some now
    ∧ ∀ e : String,
        (trigger_alert (Except.error e) rule v now store recipients).event
          = ⟨rule.name, v⟩
        ∧ (trigger_alert (Except.error e) rule v now store recipients).events_store
            = store ++ [⟨rule.name, v⟩]
        ∧ (trigger_alert (Except.error e) rule v now store recipients).email_sent
            = false := by
  refine ⟨rfl, rfl, rfl, fun e => ⟨rfl, rfl, ?_⟩⟩
  simp [trigger_alert, send_email_notification]

/-- C7: a window containing no record makes `_check_rule` return none for
every rule, whatever its metric type. -/
theorem C7_empty_window (rule : AlertRule) (records : List RequestRecord)
    (now w : Int)
    (h : ∀ r ∈ records, ¬(now - w ≤ r.timestamp ∧ r.timestamp ≤ now)) :
    check_rule rule records now w = none := by
  have hq : windowFilter records (now - w) now = [] := by
    refine List.filter_eq_nil_iff.mpr (fun r hr => ?_)
    simpa using h r hr
  simp [check_rule, hq]

/-- Witness for C7: the empty store yields no alert. -/
theorem C7_empty_window_witness : check_rule latRuleEx [] 0 0 = none :=
  C7_empty_window latRuleEx [] 0 0 (by simp)

/-- C8: after the save step, a `total_tokens` left at its default 0 is
stored as `prompt_tokens + completion_tokens`, and an explicitly supplied
non-zero `total_tokens` is stored unchanged. -/
theorem C8_total_tokens (r : RequestRecord) :
    (r.total_tokens = 0 →
      (save r).total_tokens = r.prompt_tokens + r.completion_tokens)
    ∧ (r.total_tokens ≠ 0 → (save r).total_tokens = r.total_tokens) := by
  constructor <;> intro h <;> simp [save, h]

/-- Witness for C8 at a concrete record with prompt 3, completion 4. -/
theorem C8_total_tokens_witness :
    (save rTok).total_tokens = rTok.prompt_tokens + rTok.completion_tokens :=
  (C8_total_tokens rTok).1 rfl

theorem run_rules_all_ok (evalRule : RuleEval) (l : List AlertRule)
    (h : ∀ r ∈ l, isOkB (evalRule r) = true) :
    run_rules evalRule l
      = Except.ok (l.filterMap (fun r => okEvent (evalRule r))) := by
  induction l with
  | nil => rfl
  | cons r rest ih =>
    have hr := h r (List.mem_cons_self r rest)
    have hrest := ih (fun x hx => h x (List.mem_cons_of_mem r hx))
    cases hev : evalRule r with
    | error e => simp [isOkB, hev] at hr
    | ok o =>
      cases o with
      | none => simp [run_rules, hev, hrest, okEvent]
      | some ev => simp [run_rules, hev, hrest, okEvent]

theorem run_rules_error (evalRule : RuleEval) (pre l : List AlertRule)
    (e : String) (hpre : ∀ p ∈ pre, isOkB (evalRule p) = true)
    (hl : run_rules evalRule l = Except.error e) :
    run_rules evalRule (pre ++ l) = Except.error e := by
  induction pre with
  | nil => simpa using hl
  | cons p ps ih =>
    have hp := hpre p (List.mem_cons_self p ps)
    have hps := ih (fun x hx => hpre x (List.mem_cons_of_mem p hx))
    cases hev : evalRule p with
    | error e2 => simp [isOkB, hev] at hp
    | ok o =>
      cases o with
      | none => simp [run_rules, hev, hps]
      | some ev => simp [run_rules, hev, hps]

/-- C2 counterexample: with two active rules where the first rule's
evaluation raises a store error and the second rule's evaluation succeeds
with an event, `check_all_alerts` raises instead of returning the
successful rule's event list. -/
theorem C2_counterexample :
    check_all_alerts evalFailFirst [rule1Ex, rule2Ex]
        = Except.error "store unavailable"
    ∧ check_all_alerts evalFailFirst [rule1Ex, rule2Ex]
        ≠ Except.ok [⟨"r2", 7⟩]
    ∧ okEvent (evalFailFirst rule2Ex) = some ⟨"r2", 7⟩ := by
  refine ⟨rfl, ?_, rfl⟩
  intro hcontra
  simp [check_all_alerts, run_rules, evalFailFirst, rule1Ex, rule2Ex] at hcontra

/-- C2 amended: `check_all_alerts` does not isolate per-rule failures.
When every active rule's evaluation succeeds, the caller receives the
list of events from triggered rules in order; but as soon as one rule's
evaluation raises — wherever that rule sits in the list, in particular
after earlier successful, event-producing rules — the exception
propagates out of the whole call and the remaining rules are not
evaluated, so the caller receives no events at all. -/
theorem C2_no_isolation :
    (∀ (evalRule : RuleEval) (rules : List AlertRule),
      (∀ r ∈ rules.filter (·.is_active), isOkB (evalRule r) = true) →
      check_all_alerts evalRule rules
        = Except.ok ((rules.filter (·.is_active)).filterMap
            (fun r => okEvent (evalRule r))))
    ∧ ∀ (evalRule : RuleEval) (pre : List AlertRule) (r : AlertRule)
        (post : List AlertRule) (e : String),
      (∀ p ∈ pre.filter (·.is_active), isOkB (evalRule p) = true) →
      r.is_active = true → evalRule r = Except.error e →
      check_all_alerts evalRule (pre ++ r :: post) = Except.error e := by
  constructor
  · intro evalRule rules h
    exact run_rules_all_ok evalRule (rules.filter (·.is_active)) h
  · intro evalRule pre r post e hpre hact herr
    have hfil : (pre ++ r :: post).filter (·.is_active)
        = pre.filter (·.is_active) ++ r :: post.filter (·.is_active) := by
      simp [List.filter_append, List.filter_cons, hact]
    have hr : run_rules evalRule (r :: post.filter (·.is_active))
        = Except.error e := by
      simp [run_rules, herr]
    unfold check_all_alerts
    rw [hfil]
    exact run_rules_error evalRule _ _ e hpre hr

/-- Witness for C2's amended statement: an all-successful pass returns
the triggered events, and a store failure on the second of two active
rules — after the first rule already produced an event — aborts the pass
with the error, delivering no events. -/
theorem C2_no_isolation_witness :
    check_all_alerts evalAllOk [rule2Ex]
      = Except.ok (([rule2Ex].filter (·.is_active)).filterMap
          (fun r => okEvent (evalAllOk r)))
    ∧ check_all_alerts evalFailFirst ([rule2Ex] ++ rule1Ex :: [])
        = Except.error "store unavailable" :=
  ⟨C2_no_isolation.1 evalAllOk [rule2Ex] (by decide),
   C2_no_isolation.2 evalFailFirst [rule2Ex] rule1Ex [] "store unavailable"
     (by decide) rfl rfl⟩

/-- C3 counterexample: a record timestamped exactly at `now - w`
(`now = 100`, `w = 10`) lies in the current window `[now-w, now]` AND in
the previous-period window fetched by `_check_token_spike`, whose filter
is the closed interval ending at `now - w`; with threshold 3 the spike
rule therefore sees ratio 500/500 = 1 and does not trigger, not the
baseline-free ratio 500 the claim's half-open window would give. -/
theorem C3_counterexample :
    rSpike ∈ windowFilter [rSpike] (100 - 10) 100
    ∧ rSpike ∈ windowFilter [rSpike] (100 - 10 - 10) (100 - 10)
    ∧ sumBy (·.total_tokens) (windowFilter [rSpike] (100 - 10 - 10) (100 - 10)) = 500
    ∧ check_rule spikeRuleEx [rSpike] 100 10 = none := by
  refine ⟨by decide, by decide, by decide, ?_⟩
  norm_num [check_rule, windowFilter, check_token_spike, spikeVal, sumBy,
    rSpike, spikeRuleEx, baseRecord, check_error_rate, check_latency]
  decide

/-- C3 amended: the previous-period baseline is the sum of total_tokens
over the closed window `[now-2w, now-w]` (both bounds included) while the
current window is `[now-w, now]`; a record timestamped exactly at
`now - w` is counted in both windows. -/
theorem C3_closed_windows (records : List RequestRecord) (now w : Int)
    (r : RequestRecord) (hw : 0 ≤ w) (hr : r ∈ records)
    (hts : r.timestamp = now - w) :
    r ∈ windowFilter records (now - w) now
    ∧ r ∈ windowFilter records (now - w - w) (now - w)
    ∧ ∀ x ∈ records,
        (x ∈ windowFilter records (now - w - w) (now - w) ↔
          now - 2 * w ≤ x.timestamp ∧ x.timestamp ≤ now - w) := by
  refine ⟨?_, ?_, ?_⟩
  · refine List.mem_filter.mpr ⟨hr, ?_⟩
    simp only [decide_eq_true_eq]
    omega
  · refine List.mem_filter.mpr ⟨hr, ?_⟩
    simp only [decide_eq_true_eq]
    omega
  · intro x hx
    constructor
    · intro hmem
      have := (List.mem_filter.mp hmem).2
      simp only [decide_eq_true_eq] at this
      omega
    · intro hb
      refine List.mem_filter.mpr ⟨hx, ?_⟩
      simp only [decide_eq_true_eq]
      omega

/-- Witness for C3's amended statement at the concrete record `rSpike`. -/
theorem C3_closed_windows_witness :
    rSpike ∈ windowFilter [rSpike] (100 - 10) 100
    ∧ rSpike ∈ windowFilter [rSpike] (100 - 10 - 10) (100 - 10)
    ∧ ∀ x ∈ [rSpike],
        (x ∈ windowFilter [rSpike] (100 - 10 - 10) (100 - 10) ↔
          100 - 2 * 10 ≤ x.timestamp ∧ x.timestamp ≤ 100 - 10) :=
  C3_closed_windows [rSpike] 100 10 rSpike (by decide)
    (List.mem_singleton.mpr rfl) rfl

/-- C4: the spike ratio is current/previous when previous > 0, current
itself when previous = 0 and current > 0, and exactly 0 when both are 0;
the rule triggers exactly when the ratio is at least the threshold, so
previous = 0, current = 0 gives ratio 0 and no trigger while previous = 0,
current = 500 gives ratio 500 and triggers a threshold-3 rule. -/
theorem C4_spike_ratio :
    (∀ (rule : AlertRule) (queryset records : List RequestRecord) (now w : Int),
      check_token_spike rule queryset records now w ≠ none ↔
        spikeVal (sumBy (·.total_tokens) queryset)
          (sumBy (·.total_tokens) (windowFilter records (now - w - w) (now - w)))
          ≥ rule.threshold)
    ∧ (∀ cur prev : Int, 0 < prev → spikeVal cur prev = (cur : ℚ) / (prev : ℚ))
    ∧ spikeVal 0 0 = 0
    ∧ spikeVal 500 0 = 500
    ∧ check_rule spikeRuleEx [rZero] 100 10 = none
    ∧ check_rule spikeRuleEx [rCur] 100 10 = some ⟨"Token Usage Spike", 500⟩ := by
  refine ⟨?_, ?_, by decide, by decide, by decide, by decide⟩
  · intro rule queryset records now w
    simp only [check_token_spike]
    split
    · next hcond => simp [hcond]
    · next hcond => simp [hcond]
  · intro cur prev hp
    simp [spikeVal, hp]

/-- Witness for C4 at current 500, previous 2. -/
theorem C4_spike_ratio_witness : spikeVal 500 2 = (500 : ℚ) / (2 : ℚ) :=
  C4_spike_ratio.2.1 500 2 (by decide)

/-- C6: a latency rule produces an AlertEvent iff the window holds at
least one successful record and the P95 of the successful records'
latencies reaches the threshold; with zero successful records the result
is none even when error records are present, and a produced event carries
the P95 as its metric value. -/
theorem C6_latency_trigger (rule : AlertRule) (records : List RequestRecord)
    (now w : Int) (hmt : rule.metric_type = "latency") :
    (check_rule rule records now w ≠ none ↔
      ((windowFilter records (now - w) now).filter
          (fun r => decide (r.status = "success")) ≠ []
        ∧ ((alertP95 (((windowFilter records (now - w) now).filter
            (fun r => decide (r.status = "success"))).map (·.latency_ms)) : ℤ) : ℚ)
            ≥ rule.threshold))
    ∧ ∀ ev, check_rule rule records now w = some ev →
        ev.metric_value
          = ((alertP95 (((windowFilter records (now - w) now).filter
              (fun r => decide (r.status = "success"))).map (·.latency_ms)) : ℤ) : ℚ) := by
  have hq : check_rule rule records now w
      = (if (windowFilter records (now - w) now).length = 0 then none
         else check_latency rule (windowFilter records (now - w) now)) := by
    simp [check_rule, hmt]
  by_cases h0 : (windowFilter records (now - w) now).length = 0
  · have hqnil : windowFilter records (now - w) now = [] := List.length_eq_zero.mp h0
    rw [hq, if_pos h0]
    constructor
    · simp [hqnil]
    · intro ev hev
      exact absurd hev (by simp)
  · rw [hq, if_neg h0]
    by_cases hL : sortedLatencies (((windowFilter records (now - w) now).filter
        (fun r => decide (r.status = "success"))).map (·.latency_ms)) = []
    · have hSnil : (windowFilter records (now - w) now).filter
          (fun r => decide (r.status = "success")) = [] :=
        List.map_eq_nil_iff.mp ((sortedLatencies_eq_nil _).mp hL)
      constructor
      · simp [check_latency, hL, hSnil]
        intro hc
        exact absurd rfl hc
      · intro ev hev
        rw [check_latency] at hev
        simp [hL] at hev
    · have hSne : (windowFilter records (now - w) now).filter
          (fun r => decide (r.status = "success")) ≠ [] := by
        intro hc
        exact hL (by rw [hc]; rfl)
      have hEmp : (sortedLatencies (((windowFilter records (now - w) now).filter
          (fun r => decide (r.status = "success"))).map (·.latency_ms))).isEmpty
            = false := by
        cases hx : sortedLatencies (((windowFilter records (now - w) now).filter
            (fun r => decide (r.status = "success"))).map (·.latency_ms)) with
        | nil => exact absurd hx hL
        | cons a as => rfl
      constructor
      · rw [check_latency]
        simp only [hEmp, Bool.false_eq_true, if_false]
        split
        · next hcond => simpa [alertP95, hSne] using hcond
        · next hcond => simpa [alertP95, hSne] using hcond
      · intro ev hev
        rw [check_latency] at hev
        simp only [hEmp, Bool.false_eq_true, if_false] at hev
        split at hev
        · cases hev
          simp [alertP95]
        · exact absurd hev (by simp)

/-- Witness for C6: 20 successful latencies 100..2000 in the window give
P95 = 2000 and trigger a 1000 ms threshold. -/
theorem C6_latency_trigger_witness :
    check_rule latRuleEx ex20 100 60 ≠ none
    ∧ check_rule latRuleEx ex20 100 60 = some ⟨"High Latency", 2000⟩ :=
  ⟨(C6_latency_trigger latRuleEx ex20 100 60 rfl).1.mpr ⟨by decide, by decide⟩,
   by decide⟩

/-- C9: any granularity outside hour/day/month is silently mapped to the
day truncation, so the result equals a call with granularity day, for
every store content, filter combination and truncation collaborator. -/
theorem C9_granularity_fallback (tf : TruncFns) (records : List RequestRecord)
    (start_date end_date : Option Int) (model : Option String)
    (group_by : String) (user_id : Option String)
    (h1 : group_by ≠ "hour") (h2 : group_by ≠ "day") (h3 : group_by ≠ "month") :
    get_token_usage_over_time tf records start_date end_date model group_by user_id
      = get_token_usage_over_time tf records start_date end_date model "day" user_id := by
  simp [get_token_usage_over_time, h1, h2, h3]

/-- Witness for C9 at the unknown granularity "week". -/
theorem C9_granularity_fallback_witness :
    get_token_usage_over_time tfEx [baseRecord] none none none "week" none
      = get_token_usage_over_time tfEx [baseRecord] none none none "day" none :=
  C9_granularity_fallback tfEx [baseRecord] none none none "week" none
    (by decide) (by decide) (by decide)

/-- C10: the overview P95 ranges over the latencies of every filtered
record regardless of status, so on mixed-status data (success 100 ms,
error 5000 ms) it returns 5000 while the success-only P95 of the
per-model latency metric and of the latency alert check return 100. -/
theorem C10_overview_counts_all_statuses :
    (∀ (records : List RequestRecord) (s e : Option Int) (m u : Option String),
      (get_overview_metrics records s e m u).p95_latency_ms
        = overviewP95 ((overviewQueryset records s e m u).map (·.latency_ms)))
    ∧ (get_overview_metrics ex10 none none none none).p95_latency_ms = 5000
    ∧ (get_latency_metrics ex10 none none none).map (·.p95_latency_ms) = [100]
    ∧ check_rule latRuleLow ex10 100 60 = some ⟨"lat-low", 100⟩ := by
  refine ⟨?_, by decide, by decide, by decide⟩
  intro records s e m u
  by_cases h : (overviewQueryset records s e m u).length = 0
  · have hq : overviewQueryset records s e m u = [] := List.length_eq_zero.mp h
    simp [get_overview_metrics, h, hq, overviewP95, sortedLatencies]
  · simp [get_overview_metrics, h]

end LLMDash
